import Mathlib

namespace SessionGen

/-- Session status strings written to state.json by src/index.js. The code
uses the literal strings initializing, requesting_code, code, paired,
timeout, closed, failed (pairing-code request rejected) and error
(background setup exception). -/
inductive Status
  | initializing
  | requesting_code
  | code
  | paired
  | timeout
  | closed
  | failed
  | error
deriving DecidableEq

/-- Serialization of a status to the literal string stored in state.json. -/
def Status.str : Status → String
  | .initializing => "initializing"
  | .requesting_code => "requesting_code"
  | .code => "code"
  | .paired => "paired"
  | .timeout => "timeout"
  | .closed => "closed"
  | .failed => "failed"
  | .error => "error"

/-- Contents of a session state.json file: the fields written at creation
(lines 113-118) plus every field later merged in by updateState. -/
structure SessionRecord where
  id : String
  phone : String
  status : Status
  createdAt : Nat
  code : Option String
  error : Option String
  ready : Bool
  credsPath : Option String
  sentToPhone : Option Bool
  sendError : Option String
  reason : Option String
deriving DecidableEq

/-- Contents of one session directory under sessions/: the state.json
record and, once written, the creds.json blob. -/
structure SessionDir where
  stateFile : SessionRecord
  credsFile : Option String
deriving DecidableEq

/-- Outcome of the optional credential relay over the sender socket
(lines 192-209): no sender configured, send succeeded, or send threw. -/
inductive RelayOutcome
  | noSender
  | sent
  | sendFailed (msg : String)
deriving DecidableEq

/-- Environment the messaging-client collaborator provides to one workflow:
the device credentials held in state.creds (written to creds.json on
pairing) and the relay outcome. -/
structure ClientEnv where
  creds : Option String
  relay : RelayOutcome
deriving DecidableEq

/-- State of one background pairing workflow instance (lines 121-235): the
session directory it owns, the single-use finished flag closed, the timer
bookkeeping of the 2-minute setTimeout, and how many times sock.end has
been called. codeAt and deadline record, in milliseconds, when the pairing
code was stored and when the timer is due. -/
structure Workflow where
  stateFile : SessionRecord
  credsFile : Option String
  closed : Bool
  armed : Bool
  timerCleared : Bool
  timerFired : Bool
  codeAt : Option Nat
  deadline : Option Nat
  endCount : Nat
deriving DecidableEq

/-- updateState (lines 143-147): read state.json, Object.assign the patch,
write it back. Patches are modelled as record updates. -/
def Workflow.updateState (w : Workflow) (f : SessionRecord → SessionRecord) : Workflow :=
  { w with stateFile := f w.stateFile }

/-- cleanup (lines 165-167): sock.end(), counted. -/
def Workflow.cleanup (w : Workflow) : Workflow :=
  { w with endCount := w.endCount + 1 }

/-- timeoutMs (line 169): 2 minutes. -/
def timeoutMs : Nat := 2 * 60 * 1000

/-- Timeout callback (lines 170-175): if the finished flag is not set,
record status timeout and end the socket. The callback does not set the
finished flag itself. -/
def handleTimeout (w : Workflow) : Workflow :=
  if w.closed then w
  else (w.updateState fun st => { st with status := .timeout }).cleanup

/-- Connection-open branch of the connection.update handler (lines
178-214): clearTimeout, set status paired, write creds.json when
state.creds is present, set ready and credsPath, attempt the relay
recording its outcome in sentToPhone / sendError, end the socket, set the
finished flag. -/
def handleOpen (sessionId : String) (env : ClientEnv) (w : Workflow) : Workflow :=
  let w1 := { w with timerCleared := true }
  let w2 := w1.updateState fun st => { st with status := .paired }
  let w3 := match env.creds with
    | some c => { w2 with credsFile := some c }
    | none => w2
  let w4 := w3.updateState fun st =>
    { st with ready := true, credsPath := some ("/download/" ++ sessionId) }
  let w5 := match env.relay with
    | .noSender => w4
    | .sent => w4.updateState fun st => { st with sentToPhone := some true }
    | .sendFailed m => w4.updateState fun st =>
        { st with sentToPhone := some false, sendError := some m }
  let w6 := w5.cleanup
  { w6 with closed := true }

/-- Connection-close branch (lines 216-225): if the record is not marked
ready, set status closed with the disconnect reason (falling back to the
string closed), end the socket, set the finished flag; otherwise do
nothing. -/
def handleClose (reason : Option String) (w : Workflow) : Workflow :=
  if w.stateFile.ready then w
  else
    let w1 := w.updateState fun st =>
      { st with status := .closed, reason := some (reason.getD "closed") }
    let w2 := w1.cleanup
    { w2 with closed := true }

/-- Events delivered to one workflow: collaborator connection updates and
the firing of the 2-minute timer. -/
inductive WAEvent
  | connOpen
  | connClose (reason : Option String)
  | timeoutFire
deriving DecidableEq

/-- One event delivery. setTimeout fires at most once and never after
clearTimeout, so a timeoutFire is a real firing only when the timer is
armed, not cleared and has not fired yet. -/
def step (sessionId : String) (env : ClientEnv) (w : Workflow) (e : WAEvent) : Workflow :=
  match e with
  | .connOpen => handleOpen sessionId env w
  | .connClose r => handleClose r w
  | .timeoutFire =>
      if w.armed && !w.timerCleared && !w.timerFired then
        { handleTimeout w with timerFired := true }
      else w

/-- Delivery of a sequence of events to one workflow. -/
def run (sessionId : String) (env : ClientEnv) (w : Workflow) (evs : List WAEvent) : Workflow :=
  evs.foldl (step sessionId env) w

/-- Initial state.json written synchronously by POST /generate
(lines 112-118). -/
def initRecord (sessionId phone : String) (now : Nat) : SessionRecord :=
  { id := sessionId, phone := phone, status := .initializing, createdAt := now,
    code := none, error := none, ready := false, credsPath := none,
    sentToPhone := none, sendError := none, reason := none }

/-- Workflow state when the background task starts, before any update. -/
def initWorkflow (sessionId phone : String) (now : Nat) : Workflow :=
  { stateFile := initRecord sessionId phone now, credsFile := none,
    closed := false, armed := false, timerCleared := false, timerFired := false,
    codeAt := none, deadline := none, endCount := 0 }

/-- Result of sock.requestPairingCode(phone) at line 152. -/
inductive CodeResult
  | ok (code : String)
  | err (msg : String)
deriving DecidableEq

/-- Background pairing workflow (lines 121-235): set status
requesting_code; on a rejected code request set status failed with the
diagnostic, end the socket and return (events are never handled, the
handler is only registered later); on success store the code, arm the
2-minute timer - tCode is the clock value, in ms, at which the code status
is recorded and the timer armed in the same synchronous tick - and then
deliver the events. -/
def runPairing (sessionId phone : String) (t0 tCode : Nat) (r : CodeResult)
    (env : ClientEnv) (evs : List WAEvent) : Workflow :=
  let w := initWorkflow sessionId phone t0
  let w1 := w.updateState fun st => { st with status := .requesting_code }
  match r with
  | .err m =>
      let w2 := w1.updateState fun st =>
        { st with status := .failed,
                  error := some ("requestPairingCode failed: " ++ m) }
      w2.cleanup
  | .ok c =>
      let w2 := w1.updateState fun st => { st with status := .code, code := some c }
      let w3 := { w2 with armed := true, codeAt := some tCode,
                          deadline := some (tCode + timeoutMs) }
      run sessionId env w3 evs

/-- Catch of the background task (lines 228-234): on an unrecoverable
exception set status error with the message. The socket is not ended
here. -/
def crashPhase (m : String) (w : Workflow) : Workflow :=
  w.updateState fun st => { st with status := .error, error := some m }

/-- The sessions root (line 24) joined with the session id (lines 38-40). -/
def sessionPath (id : String) : String :=
  "sessions" ++ "/" ++ id

/-- Strip every non-digit character, the replace of line 104. -/
def stripNonDigits (s : String) : String :=
  String.mk (s.data.filter fun c => c.isDigit)

/-- On-disk sessions directory: session id to directory contents. -/
abbrev Store := List (String × SessionDir)

/-- Read one session directory by id. -/
def Store.read (s : Store) (id : String) : Option SessionDir :=
  List.lookup id s

/-- Response of POST /generate. -/
inductive GenResult
  | ok (sessionId poll : String)
  | badRequest (error : String)
deriving DecidableEq

/-- POST /generate (lines 103-118 and 237): normalize the phone; reject
with 400 Invalid phone when the stripped string is empty (JS falsiness of
the string, i.e. length 0) or shorter than 8 digits; otherwise create the
session directory and its state.json synchronously and respond with the
fresh uuidv4 session id and the poll URL. The uuidv4 draw is a
parameter. -/
def generate (rawPhone freshId : String) (now : Nat) (store : Store) :
    GenResult × Store :=
  let phone := stripNonDigits rawPhone
  if phone.length = 0 ∨ phone.length < 8 then
    (.badRequest "Invalid phone", store)
  else
    (.ok freshId ("/status/" ++ freshId),
      (freshId, { stateFile := initRecord freshId phone now, credsFile := none })
        :: store)

/-- Response of GET /status/:id. -/
inductive StatusResult
  | ok (record : SessionRecord)
  | notFound (error : String)
deriving DecidableEq

/-- GET /status/:id (lines 241-247). -/
def getStatus (store : Store) (id : String) : StatusResult :=
  match Store.read store id with
  | none => .notFound "session not found"
  | some d => .ok d.stateFile

/-- Response of GET /download/:id. -/
inductive DownloadResult
  | ok (blob fileName : String)
  | notReady (msg : String)
deriving DecidableEq

/-- GET /download/:id (lines 250-255): serve creds.json as an attachment
named creds-id.json when present, otherwise 404 Not ready. -/
def download (store : Store) (id : String) : DownloadResult :=
  match Store.read store id with
  | none => .notReady "Not ready"
  | some d =>
    match d.credsFile with
    | none => .notReady "Not ready"
    | some blob => .ok blob ("creds-" ++ id ++ ".json")

/-- View of a workflow as its session directory on disk. -/
def Workflow.dirView (w : Workflow) : SessionDir :=
  { stateFile := w.stateFile, credsFile := w.credsFile }

/-- Claim C1 (code_bug evidence): after the timer has recorded the terminal
status timeout, a later connection-open event still overwrites the stored
status with paired - the timeout callback never sets the finished flag and
the open branch is unguarded - and a later connection-close event likewise
overwrites timeout with closed, so a terminal status is not preserved and
the first event does not win. -/
theorem terminal_status_overwritten_after_timeout :
    (runPairing "sid" "254700000000" 0 5 (.ok "ABCD-1234")
        { creds := some "CREDS", relay := .noSender }
        [.timeoutFire]).stateFile.status = .timeout ∧
    (runPairing "sid" "254700000000" 0 5 (.ok "ABCD-1234")
        { creds := some "CREDS", relay := .noSender }
        [.timeoutFire, .connOpen]).stateFile.status = .paired ∧
    (runPairing "sid" "254700000000" 0 5 (.ok "ABCD-1234")
        { creds := some "CREDS", relay := .noSender }
        [.timeoutFire, .connClose (some "conn lost")]).stateFile.status = .closed := by
  decide

/-- Claim C9 (code_bug evidence): on the trace timeout-fire then
connection-close the socket is ended twice (the timeout callback does not
set the finished flag, so the close branch runs cleanup again), and the
background catch path ends it zero times. -/
theorem sock_end_not_exactly_once :
    (runPairing "sid" "254700000000" 0 5 (.ok "ABCD-1234")
        { creds := some "CREDS", relay := .noSender }
        [.timeoutFire, .connClose none]).endCount = 2 ∧
    (crashPhase "boom" (initWorkflow "sid" "254700000000" 0)).endCount = 0 := by
  decide

/-- Claim C6 counterexample: when the pairing-code request fails, the
status recorded in state.json is the string failed, not error. -/
theorem code_failure_not_error_status :
    (runPairing "sid" "254700000000" 0 5 (.err "boom")
        { creds := none, relay := .noSender } []).stateFile.status ≠ .error ∧
    ((runPairing "sid" "254700000000" 0 5 (.err "boom")
        { creds := none, relay := .noSender } []).stateFile.status).str = "failed" := by
  decide

/-- Claim C6 (amended): when the pairing-code request fails, the session
status is recorded as the terminal state failed together with a diagnostic
string, the socket is ended exactly once, and no later event delivery has
any effect (the workflow returned before registering the handler), so the
state is terminal and the request is not retried. -/
theorem code_failure_failed_terminal (sessionId phone m : String) (t0 tCode : Nat)
    (env : ClientEnv) (evs : List WAEvent) :
    (runPairing sessionId phone t0 tCode (.err m) env evs).stateFile.status = .failed ∧
    (runPairing sessionId phone t0 tCode (.err m) env evs).stateFile.error =
      some ("requestPairingCode failed: " ++ m) ∧
    (runPairing sessionId phone t0 tCode (.err m) env evs).endCount = 1 ∧
    runPairing sessionId phone t0 tCode (.err m) env evs =
      runPairing sessionId phone t0 tCode (.err m) env [] :=
  ⟨rfl, rfl, rfl, rfl⟩

/-- Claim C3: the 2-minute timer is armed in the same synchronous tick in
which the code status is recorded (clock value tCode) and is due exactly
timeoutMs = 120000 ms later, so an undisturbed timer firing records status
timeout exactly 2 minutes after the code status was recorded - never
earlier - and the timer is never armed when the pairing-code request
fails. -/
theorem timeout_two_minutes_from_code (sessionId phone c : String)
    (t0 tCode : Nat) (env : ClientEnv) :
    (runPairing sessionId phone t0 tCode (.ok c) env [.timeoutFire]).stateFile.status
        = .timeout ∧
    (runPairing sessionId phone t0 tCode (.ok c) env [.timeoutFire]).codeAt
        = some tCode ∧
    (runPairing sessionId phone t0 tCode (.ok c) env [.timeoutFire]).deadline
        = some (tCode + 2 * 60 * 1000) ∧
    (∀ m evs, (runPairing sessionId phone t0 tCode (.err m) env evs).deadline = none) :=
  ⟨rfl, rfl, rfl, fun _ _ => rfl⟩

/-- Claim C5: a phone that is empty or shorter than 8 digits after
stripping non-digits is rejected synchronously with the 400 Invalid phone
error and the sessions directory is returned unchanged: no session record
is created. -/
theorem invalid_phone_rejected (rawPhone freshId : String) (now : Nat) (store : Store)
    (h : (stripNonDigits rawPhone).length < 8) :
    generate rawPhone freshId now store = (.badRequest "Invalid phone", store) := by
  simp only [generate]
  rw [if_pos (Or.inr h)]

/-- Claim C5 witness: the phone 123 is rejected and creates nothing. -/
theorem invalid_phone_rejected_witness :
    (stripNonDigits "123").length < 8 ∧
    generate "123" "fresh-id" 0 [] = (.badRequest "Invalid phone", []) :=
  ⟨by decide, invalid_phone_rejected "123" "fresh-id" 0 [] (by decide)⟩

/-- Claim C4: for a valid phone, POST /generate synchronously creates the
state.json record with status initializing (the initial state of the
machine) before responding, so an immediate GET /status/:id on the
returned session id finds that record and never answers 404 session not
found. -/
theorem create_then_getStatus_found (rawPhone freshId : String) (now : Nat)
    (store : Store) (h : 8 ≤ (stripNonDigits rawPhone).length) :
    (generate rawPhone freshId now store).1 = .ok freshId ("/status/" ++ freshId) ∧
    getStatus (generate rawPhone freshId now store).2 freshId =
      .ok (initRecord freshId (stripNonDigits rawPhone) now) ∧
    (initRecord freshId (stripNonDigits rawPhone) now).status = .initializing := by
  have hc : ¬((stripNonDigits rawPhone).length = 0 ∨
      (stripNonDigits rawPhone).length < 8) := by omega
  simp only [generate]
  rw [if_neg hc]
  refine ⟨rfl, ?_, rfl⟩
  simp [getStatus, Store.read, List.lookup]

/-- Claim C4 witness at a concrete valid phone. -/
theorem create_then_getStatus_found_witness :
    8 ≤ (stripNonDigits "254700000000").length ∧
    getStatus (generate "254700000000" "fresh-id" 0 []).2 "fresh-id" =
      .ok (initRecord "fresh-id" (stripNonDigits "254700000000") 0) :=
  ⟨by decide, (create_then_getStatus_found "254700000000" "fresh-id" 0 [] (by decide)).2.1⟩

/-- Claim C8: delivering a connection-close event after a connection-open
event has been processed is a complete no-op - the open branch marked the
record ready and the close branch is guarded by that mark - and the stored
status stays paired. -/
theorem close_after_open_noop (sessionId : String) (env : ClientEnv)
    (w : Workflow) (reason : Option String) :
    step sessionId env (step sessionId env w .connOpen) (.connClose reason) =
      step sessionId env w .connOpen ∧
    (step sessionId env w .connOpen).stateFile.status = .paired := by
  obtain ⟨creds, relay⟩ := env
  cases creds <;> cases relay <;>
    simp [step, handleOpen, handleClose, Workflow.updateState, Workflow.cleanup]

/-- Claim C7: a failing credential relay never touches the status field:
after the open handler with a failing send the status is paired, the
failure is recorded only in sentToPhone and sendError, the resulting
record differs from the no-sender run in exactly those two auxiliary
fields, and the creds.json blob is unaffected. -/
theorem relay_failure_keeps_paired (sessionId : String) (creds : Option String)
    (m : String) (w : Workflow) :
    (handleOpen sessionId { creds := creds, relay := .sendFailed m } w).stateFile.status
        = .paired ∧
    (handleOpen sessionId { creds := creds, relay := .sendFailed m } w).stateFile.sentToPhone
        = some false ∧
    (handleOpen sessionId { creds := creds, relay := .sendFailed m } w).stateFile.sendError
        = some m ∧
    (handleOpen sessionId { creds := creds, relay := .sendFailed m } w).stateFile =
      { (handleOpen sessionId { creds := creds, relay := .noSender } w).stateFile with
          sentToPhone := some false, sendError := some m } ∧
    (handleOpen sessionId { creds := creds, relay := .sendFailed m } w).credsFile =
      (handleOpen sessionId { creds := creds, relay := .noSender } w).credsFile := by
  cases creds <;>
    simp [handleOpen, Workflow.updateState, Workflow.cleanup]

/-- Invariant tying the creds.json blob to the paired status, for a
collaborator that holds credentials: the blob exists exactly when the
status is paired, and a paired record is marked ready with its timer
cleared. -/
def Inv (w : Workflow) : Prop :=
  (w.credsFile.isSome = true ↔ w.stateFile.status = .paired) ∧
  (w.stateFile.status = .paired → w.stateFile.ready = true ∧ w.timerCleared = true)

/-- One event delivery preserves the creds-paired invariant when the
collaborator holds credentials. -/
theorem step_inv (sessionId c : String) (relay : RelayOutcome) (w : Workflow)
    (e : WAEvent) (h : Inv w) :
    Inv (step sessionId { creds := some c, relay := relay } w e) := by
  obtain ⟨h1, h2⟩ := h
  cases e with
  | connOpen =>
      cases relay <;>
        simp [step, handleOpen, Workflow.updateState, Workflow.cleanup, Inv]
  | connClose r =>
      by_cases hr : w.stateFile.ready = true
      · have hs : step sessionId { creds := some c, relay := relay } w (.connClose r) = w := by
          simp [step, handleClose, hr]
        rw [hs]
        exact ⟨h1, h2⟩
      · have hnp : ¬ w.stateFile.status = .paired := fun hp => hr (h2 hp).1
        have hcf : w.credsFile = none := by
          cases hcf : w.credsFile with
          | none => rfl
          | some b => exact absurd (h1.mp (by simp [hcf])) hnp
        simp [step, handleClose, hr, Inv, Workflow.updateState, Workflow.cleanup, hcf]
  | timeoutFire =>
      by_cases hg : (w.armed && !w.timerCleared && !w.timerFired) = true
      · have hcl : w.timerCleared = false := by
          rcases Bool.and_eq_true_iff.mp hg with ⟨hg1, _⟩
          rcases Bool.and_eq_true_iff.mp hg1 with ⟨_, hg2⟩
          simpa using hg2
        have hnp : ¬ w.stateFile.status = .paired := by
          intro hp
          have hct := (h2 hp).2
          simp [hcl] at hct
        have hcf : w.credsFile = none := by
          cases hcf : w.credsFile with
          | none => rfl
          | some b => exact absurd (h1.mp (by simp [hcf])) hnp
        by_cases hc : w.closed = true
        · have hs : step sessionId { creds := some c, relay := relay } w .timeoutFire =
              { w with timerFired := true } := by
            simp [step, hg, handleTimeout, hc]
          rw [hs]
          exact ⟨h1, h2⟩
        · simp [step, hg, handleTimeout, hc, Inv, Workflow.updateState,
            Workflow.cleanup, hcf]
      · have hg' : (w.armed && !w.timerCleared && !w.timerFired) = false := by
          simpa using hg
        have hs : step sessionId { creds := some c, relay := relay } w .timeoutFire = w := by
          simp [step, hg']
        rw [hs]
        exact ⟨h1, h2⟩

/-- A whole event sequence preserves the creds-paired invariant. -/
theorem run_inv (sessionId c : String) (relay : RelayOutcome) (w : Workflow)
    (evs : List WAEvent) (h : Inv w) :
    Inv (run sessionId { creds := some c, relay := relay } w evs) := by
  induction evs generalizing w with
  | nil => exact h
  | cons e tl ih => exact ih _ (step_inv sessionId c relay w e h)

/-- The whole pairing workflow satisfies the creds-paired invariant when
the collaborator holds credentials. -/
theorem runPairing_inv (sessionId phone : String) (t0 tCode : Nat) (r : CodeResult)
    (c : String) (relay : RelayOutcome) (evs : List WAEvent) :
    Inv (runPairing sessionId phone t0 tCode r { creds := some c, relay := relay } evs) := by
  cases r with
  | err m =>
      constructor <;>
        simp [runPairing, initWorkflow, initRecord, Workflow.updateState,
          Workflow.cleanup, Inv]
  | ok code =>
      apply run_inv
      constructor <;>
        simp [initWorkflow, initRecord, Workflow.updateState, Inv]

/-- Claim C2: for a collaborator holding credentials, the creds.json blob
of a session is set exactly when the recorded status is paired, GET
/download/:id returns the stored blob as the attachment creds-id.json
exactly when the status is paired, and it answers 404 Not ready exactly
when the status is anything else. -/
theorem download_iff_paired (sessionId phone : String) (t0 tCode : Nat)
    (r : CodeResult) (c : String) (relay : RelayOutcome) (evs : List WAEvent) :
    ((runPairing sessionId phone t0 tCode r { creds := some c, relay := relay }
        evs).credsFile.isSome = true ↔
      (runPairing sessionId phone t0 tCode r { creds := some c, relay := relay }
        evs).stateFile.status = .paired) ∧
    ((∃ blob, download
        [(sessionId, (runPairing sessionId phone t0 tCode r
            { creds := some c, relay := relay } evs).dirView)] sessionId =
          .ok blob ("creds-" ++ sessionId ++ ".json")) ↔
      (runPairing sessionId phone t0 tCode r { creds := some c, relay := relay }
        evs).stateFile.status = .paired) ∧
    (download
        [(sessionId, (runPairing sessionId phone t0 tCode r
            { creds := some c, relay := relay } evs).dirView)] sessionId =
          .notReady "Not ready" ↔
      ¬ (runPairing sessionId phone t0 tCode r { creds := some c, relay := relay }
        evs).stateFile.status = .paired) := by
  obtain ⟨h1, h2⟩ := runPairing_inv sessionId phone t0 tCode r c relay evs
  set w := runPairing sessionId phone t0 tCode r
    { creds := some c, relay := relay } evs with hw
  cases hcf : w.credsFile with
  | none =>
      have hnp : ¬ w.stateFile.status = .paired := by
        rw [← h1]
        simp [hcf]
      rw [hcf] at h1
      refine ⟨h1, ?_, ?_⟩
      · simp [download, Store.read, List.lookup, Workflow.dirView, hcf, hnp]
      · simp [download, Store.read, List.lookup, Workflow.dirView, hcf, hnp]
  | some b =>
      have hp : w.stateFile.status = .paired := h1.mp (by simp [hcf])
      rw [hcf] at h1
      refine ⟨h1, ?_, ?_⟩
      · simp [download, Store.read, List.lookup, Workflow.dirView, hcf, hp]
      · simp [download, Store.read, List.lookup, Workflow.dirView, hcf, hp]

/-- Every character of a stripped phone is a decimal digit. -/
theorem mem_stripNonDigits {c : Char} {s : String}
    (h : c ∈ (stripNonDigits s).data) : c.isDigit = true := by
  simp [stripNonDigits] at h
  exact h.2

/-- Distinct session ids give distinct per-session directories. -/
theorem sessionPath_injective {a b : String} (h : sessionPath a = sessionPath b) :
    a = b := by
  have hd := congrArg String.data h
  simp only [sessionPath, String.data_append, List.append_assoc] at hd
  exact String.ext (List.append_cancel_left (List.append_cancel_left hd))

/-- Claim C10: POST /generate assigns the freshly drawn uuidv4 value as the
session id - never the phone number: a uuid string contains a hyphen while
a normalized phone has only digits - and two accepted requests with
distinct draws answer distinct ids, use distinct session directories, and
leave two independent records neither of which overwrites the other. -/
theorem fresh_uuid_independent_sessions (p1 p2 id1 id2 : String) (t1 t2 : Nat)
    (store : Store) (hne : id1 ≠ id2)
    (hd1 : '-' ∈ id1.data) (hd2 : '-' ∈ id2.data)
    (hv1 : 8 ≤ (stripNonDigits p1).length) (hv2 : 8 ≤ (stripNonDigits p2).length) :
    (generate p1 id1 t1 store).1 = .ok id1 ("/status/" ++ id1) ∧
    (generate p2 id2 t2 (generate p1 id1 t1 store).2).1 =
      .ok id2 ("/status/" ++ id2) ∧
    id1 ≠ stripNonDigits p1 ∧ id2 ≠ stripNonDigits p2 ∧
    sessionPath id1 ≠ sessionPath id2 ∧
    Store.read (generate p2 id2 t2 (generate p1 id1 t1 store).2).2 id1 =
      some { stateFile := initRecord id1 (stripNonDigits p1) t1, credsFile := none } ∧
    Store.read (generate p2 id2 t2 (generate p1 id1 t1 store).2).2 id2 =
      some { stateFile := initRecord id2 (stripNonDigits p2) t2, credsFile := none } := by
  have hns : ∀ idv p : String, '-' ∈ idv.data → idv ≠ stripNonDigits p := by
    intro idv p hd heq
    have hdig : ('-' : Char).isDigit = true := mem_stripNonDigits (heq ▸ hd)
    exact absurd hdig (by decide)
  have hc1 : ¬((stripNonDigits p1).length = 0 ∨ (stripNonDigits p1).length < 8) := by
    omega
  have hc2 : ¬((stripNonDigits p2).length = 0 ∨ (stripNonDigits p2).length < 8) := by
    omega
  have hbe : (id1 == id2) = false := beq_eq_false_iff_ne.mpr hne
  simp only [generate]
  rw [if_neg hc1, if_neg hc2]
  refine ⟨rfl, rfl, hns id1 p1 hd1, hns id2 p2 hd2,
    fun hp => hne (sessionPath_injective hp), ?_, ?_⟩
  · simp [Store.read, List.lookup, hbe]
  · simp [Store.read, List.lookup]

/-- Claim C10 witness at concrete draws and phones. -/
theorem fresh_uuid_independent_sessions_witness :
    ("aaaa-1111" : String) ≠ "bbbb-2222" ∧
    Store.read (generate "254700000001" "bbbb-2222" 2
        (generate "254700000000" "aaaa-1111" 1 []).2).2 "aaaa-1111" =
      some { stateFile := initRecord "aaaa-1111" (stripNonDigits "254700000000") 1,
             credsFile := none } :=
  ⟨by decide,
    (fresh_uuid_independent_sessions "254700000000" "254700000001"
      "aaaa-1111" "bbbb-2222" 1 2 [] (by decide) (by decide) (by decide)
      (by decide) (by decide)).2.2.2.2.2.1⟩

end SessionGen
